import Mathlib

/-!
Shallow embedding of the reshade-wide-capture-addon camera subsystem
(`src/Camera/CameraController.cpp`) and buffer interceptor
(`src/Graphics/CubemapManager_methods.cpp`).

Floats are modelled as rationals (`ℚ`); the IEEE operations used by the
detection predicates (abs, comparison) are exact on the values of
interest, so the control flow is captured faithfully.  A raw GPU buffer is
modelled as its float view plus the (fewer than four) trailing bytes after
the last complete float, so byte size and float count are both
recoverable.  Mutable C++ state becomes explicit state passing: each
callback maps a state to a new state, and `GetModifiedBufferData`, which
only reads the controller state, maps it to an `Option` result.
-/

attribute [local semireducible] Rat.mul Rat.add Rat.sub Rat.inv

/-- `std::abs` on the rational model of floats. -/
def qabs (x : ℚ) : ℚ := if x < 0 then -x else x

/-- A raw byte buffer as seen by the scanner: the complete 4-byte floats it
contains (as rationals) plus the trailing bytes after the last full float.
`hWF` records that `trailing` is the remainder of a division by 4, which
holds for every real byte buffer. -/
structure RawBuffer where
  floats : List ℚ
  trailing : List Nat
  hWF : trailing.length < 4

/-- Byte size of the buffer (the `size` argument in the source). -/
def RawBuffer.byteSize (b : RawBuffer) : Nat :=
  4 * b.floats.length + b.trailing.length

/-- `floatCount = size / sizeof(float)` from the source. -/
def RawBuffer.floatCount (b : RawBuffer) : Nat :=
  b.byteSize / 4

theorem RawBuffer.floatCount_eq (b : RawBuffer) :
    b.floatCount = b.floats.length := by
  have h := b.hWF
  unfold RawBuffer.floatCount RawBuffer.byteSize
  omega

/-- The empty buffer (a default-constructed `std::vector<uint8_t>`). -/
def emptyBuffer : RawBuffer := ⟨[], [], by decide⟩

/-- The detection tolerance `epsilon = 0.1f` of the source. -/
def eps : ℚ := 1 / 10

/-- `CameraController::IsViewMatrix`: returns (match, isTransposed).  The
row-major pattern needs elements 3, 7, 11 near 0 and element 15 near 1;
the column-major (transposed) pattern needs 12, 13, 14 near 0 and 15 near
1.  The match flag is the disjunction and `isTransposed` is set to the
column-major test's outcome, exactly as `*outIsTransposed = colMajor` in
the source. -/
def IsViewMatrix (d : List ℚ) : Bool × Bool :=
  let rowMajor := decide (qabs (d.getD 3 0) < eps ∧ qabs (d.getD 7 0) < eps ∧
    qabs (d.getD 11 0) < eps ∧ qabs (d.getD 15 0 - 1) < eps)
  let colMajor := decide (qabs (d.getD 12 0) < eps ∧ qabs (d.getD 13 0) < eps ∧
    qabs (d.getD 14 0) < eps ∧ qabs (d.getD 15 0 - 1) < eps)
  (rowMajor || colMajor, colMajor)

/-- `CameraController::IsProjectionMatrix`: early-returns false when any of
the required-zero slots 1,2,3 / 4,6,7 / 15 exceeds the tolerance, or when
element 11 is near neither +1 nor -1. -/
def IsProjectionMatrix (d : List ℚ) : Bool :=
  if qabs (d.getD 1 0) > eps ∨ qabs (d.getD 2 0) > eps ∨ qabs (d.getD 3 0) > eps then
    false
  else if qabs (d.getD 4 0) > eps ∨ qabs (d.getD 6 0) > eps ∨ qabs (d.getD 7 0) > eps then
    false
  else if qabs (d.getD 15 0) > eps then false
  else if qabs (d.getD 11 0 - 1) > eps ∧ qabs (d.getD 11 0 + 1) > eps then false
  else true

/-- `CameraController::IsRightHandedProjection`: element 11 below -0.9. -/
def IsRightHandedProjection (d : List ℚ) : Bool :=
  decide (d.getD 11 0 < -(9 : ℚ) / 10)

/-- `XMLoadFloat4x4` at a float pointer: read 16 consecutive floats. -/
def loadMat16 (d : List ℚ) : List ℚ :=
  (List.range 16).map (fun k => d.getD k 0)

/-- `XMMatrixTranspose` on a row-major 16-float matrix. -/
def transpose16 (mm : List ℚ) : List ℚ :=
  (List.range 16).map (fun k => mm.getD (4 * (k % 4) + k / 4) 0)

/-- Entry (r, c) of a row-major 16-float matrix. -/
def matAt (mm : List ℚ) (r c : Nat) : ℚ :=
  mm.getD (4 * r + c) 0

/-- 3x3 determinant, used for the cofactors of the 4x4 inverse. -/
def det3 (a b c d e f g h i : ℚ) : ℚ :=
  a * (e * i - f * h) - b * (d * i - f * g) + c * (d * h - e * g)

/-- 4x4 determinant by cofactor expansion along row 0 (exact-arithmetic
counterpart of the determinant computed by `XMMatrixInverse`). -/
def det4 (mm : List ℚ) : ℚ :=
  matAt mm 0 0 * det3 (matAt mm 1 1) (matAt mm 1 2) (matAt mm 1 3)
      (matAt mm 2 1) (matAt mm 2 2) (matAt mm 2 3)
      (matAt mm 3 1) (matAt mm 3 2) (matAt mm 3 3)
  - matAt mm 0 1 * det3 (matAt mm 1 0) (matAt mm 1 2) (matAt mm 1 3)
      (matAt mm 2 0) (matAt mm 2 2) (matAt mm 2 3)
      (matAt mm 3 0) (matAt mm 3 2) (matAt mm 3 3)
  + matAt mm 0 2 * det3 (matAt mm 1 0) (matAt mm 1 1) (matAt mm 1 3)
      (matAt mm 2 0) (matAt mm 2 1) (matAt mm 2 3)
      (matAt mm 3 0) (matAt mm 3 1) (matAt mm 3 3)
  - matAt mm 0 3 * det3 (matAt mm 1 0) (matAt mm 1 1) (matAt mm 1 2)
      (matAt mm 2 0) (matAt mm 2 1) (matAt mm 2 2)
      (matAt mm 3 0) (matAt mm 3 1) (matAt mm 3 2)

/-- `CameraController::DetectWorldUp`: invert the view matrix, take row 1
of the inverse (the camera's world-space up basis vector), and compare its
Y and Z components.  By the adjugate formula `inv[1][1] = C11 / det` and
`inv[1][2] = C21 / det`, where `Cij` is the (i,j) cofactor.  The source
normalizes the vector first; normalization scales by a positive factor and
so changes neither the `|z| > |y|` comparison nor the signs, so it is
omitted here (in exact arithmetic a zero determinant yields y = z = 0 and
the (0,-1,0) branch, matching the all-false NaN comparisons of the float
code in that degenerate case). -/
def detectWorldUp (mm : List ℚ) : ℚ × ℚ × ℚ :=
  let det := det4 mm
  let y := det3 (matAt mm 0 0) (matAt mm 0 2) (matAt mm 0 3)
      (matAt mm 2 0) (matAt mm 2 2) (matAt mm 2 3)
      (matAt mm 3 0) (matAt mm 3 2) (matAt mm 3 3) / det
  let z := -det3 (matAt mm 0 0) (matAt mm 0 2) (matAt mm 0 3)
      (matAt mm 1 0) (matAt mm 1 2) (matAt mm 1 3)
      (matAt mm 3 0) (matAt mm 3 2) (matAt mm 3 3) / det
  if qabs z > qabs y then (if z > 0 then (0, 0, 1) else (0, 0, -1))
  else (if y > 0 then (0, 1, 0) else (0, -1, 0))

/-- Modelled from the spec: the per-handle `BufferState` entity of §3 (its
C++ declaration lives in `CameraController.h`, which is not among the
provided sources).  `data` is the latest byte snapshot; the matrix offsets
are float-element indices or none, encoded as the -1 sentinel the `.cpp`
code tests with `>= 0`. -/
structure BufferState where
  data : RawBuffer
  viewMatrixOffset : Int
  projMatrixOffset : Int
  isCamera : Bool

/-- Modelled from the spec: a freshly default-constructed cache entry
(empty snapshot, both offsets none, not a camera). -/
def defaultBufferState : BufferState := ⟨emptyBuffer, -1, -1, false⟩

/-- Association-list lookup keyed by resource handle
(`std::unordered_map::find`). -/
def alookup {α : Type} (h : Nat) : List (Nat × α) → Option α
  | [] => none
  | (k, v) :: rest => if k = h then some v else alookup h rest

/-- Association-list insert-or-replace (`std::unordered_map::operator[]`
followed by assignment). -/
def ainsert {α : Type} (h : Nat) (v : α) : List (Nat × α) → List (Nat × α)
  | [] => [(h, v)]
  | (k, w) :: rest => if k = h then (k, v) :: rest else (k, w) :: ainsert h v rest

/-- Association-list erase (`std::unordered_map::erase`). -/
def aerase {α : Type} (h : Nat) : List (Nat × α) → List (Nat × α)
  | [] => []
  | (k, w) :: rest => if k = h then rest else (k, w) :: aerase h rest

/-- Modelled from the spec: the Camera Identity singleton state of §3 (the
member declarations live in the missing `CameraController.h`).  A camera
handle of 0 means "no camera identified yet", matching the
`m_cameraBuffer.handle == 0` tests in the `.cpp` code. -/
structure CamState where
  bufferCache : List (Nat × BufferState)
  cameraBuffer : Nat
  isTransposed : Bool
  isRH : Bool
  upDetected : Bool
  worldUp : ℚ × ℚ × ℚ
  lastGameView : List ℚ
  lastGameProj : List ℚ

/-- Row-major 4x4 identity, `XMMatrixIdentity`. -/
def identity16 : List ℚ := [1,0,0,0, 0,1,0,0, 0,0,1,0, 0,0,0,1]

/-- Modelled from the spec: the initial controller state — empty cache, no
camera identified, world-up not yet detected (§3, §4.2.3).  The initial
values of the matrix/orientation fields are never read before being set;
identity / Y-up are used as placeholders. -/
def initState : CamState :=
  ⟨[], 0, false, false, false, (0, 1, 0), identity16, identity16⟩

/-- The scan offsets walked by both matrix loops:
`for (i = 0; i <= floatCount - 16; i += 4)`. -/
def scanOffsets (floatCount : Nat) : List Nat :=
  (List.range ((floatCount - 16) / 4 + 1)).map (· * 4)

/-- The view-matrix loop of `ScanBufferImpl` (lines 83-109): find the first
4-aligned window passing `IsViewMatrix`; on a hit record the offset and
camera mark on the cache entry, remember the (de-transposed) matrix and
transposition flag, run world-up detection if it has not run yet, and set
this resource as the camera buffer. -/
def viewStep (handle : Nat) (buf : RawBuffer) (offsets : List Nat)
    (entry : BufferState) (s : CamState) : BufferState × CamState :=
  match offsets.find? (fun i => (IsViewMatrix (buf.floats.drop i)).fst) with
  | none => (entry, s)
  | some i =>
    let t := (IsViewMatrix (buf.floats.drop i)).snd
    let viewMat0 := loadMat16 (buf.floats.drop i)
    let viewMat := if t then transpose16 viewMat0 else viewMat0
    let s1 := { s with isTransposed := t, lastGameView := viewMat,
                       cameraBuffer := handle }
    let s2 := if s.upDetected then s1
              else { s1 with worldUp := detectWorldUp viewMat, upDetected := true }
    ({ entry with viewMatrixOffset := (i : Int), isCamera := true }, s2)

/-- The projection-matrix loop of `ScanBufferImpl` (lines 112-126): find
the first window passing `IsProjectionMatrix`; on a hit record the offset
and camera mark, determine handedness, remember the matrix, and set this
resource as the camera buffer. -/
def projStep (handle : Nat) (buf : RawBuffer) (offsets : List Nat)
    (entry : BufferState) (s : CamState) : BufferState × CamState :=
  match offsets.find? (fun i => IsProjectionMatrix (buf.floats.drop i)) with
  | none => (entry, s)
  | some i =>
    ({ entry with projMatrixOffset := (i : Int), isCamera := true },
     { s with isRH := IsRightHandedProjection (buf.floats.drop i),
              lastGameProj := loadMat16 (buf.floats.drop i),
              cameraBuffer := handle })

/-- The body of `ScanBufferImpl` once both size guards have passed:
refresh the cache entry's byte snapshot (resize + memcpy) and run the two
sliding-window matrix loops, returning the final cache entry and the
updated camera-identity state. -/
def scanCore (handle : Nat) (buf : RawBuffer) (s : CamState) :
    BufferState × CamState :=
  let entry1 := { (alookup handle s.bufferCache).getD defaultBufferState with
                  data := buf }
  let offsets := scanOffsets buf.floatCount
  let vp := viewStep handle buf offsets entry1 s
  projStep handle buf offsets vp.1 vp.2

/-- `CameraController::ScanBufferImpl`: reject buffers under 64 bytes;
reject mapped buffers over 4096 bytes; otherwise run `scanCore` and store
the resulting entry under this handle.  Logging is diagnostic only and not
modelled. -/
def ScanBufferImpl (handle : Nat) (buf : RawBuffer) (isMapped : Bool)
    (s : CamState) : CamState :=
  if buf.byteSize < 64 then s
  else if isMapped ∧ buf.byteSize > 4096 then s
  else
    { (scanCore handle buf s).2 with
      bufferCache := ainsert handle (scanCore handle buf s).1 s.bufferCache }

/-- `CameraController::OnUpdateBuffer`: the direct-write ingestion path
(`isMapped = false`). -/
def OnUpdateBuffer (handle : Nat) (buf : RawBuffer) (s : CamState) : CamState :=
  ScanBufferImpl handle buf false s

/-- `CameraController::OnScanBuffer`: the mapped-path ingestion alias
(`isMapped = true`). -/
def OnScanBuffer (handle : Nat) (buf : RawBuffer) (s : CamState) : CamState :=
  ScanBufferImpl handle buf true s

/-- One ingestion callback observed by the controller. -/
structure ScanEvent where
  handle : Nat
  buf : RawBuffer
  isMapped : Bool

/-- A sequence of ingestion callbacks, applied in order. -/
def applyScans (evs : List ScanEvent) (s : CamState) : CamState :=
  evs.foldl (fun t e => ScanBufferImpl e.handle e.buf e.isMapped t) s

/-- The closed cube-face enumeration of §3. -/
inductive CubeFace where
  | Right | Left | Up | Down | Front | Back
deriving DecidableEq

/-- `XMStoreFloat4x4` at float offset `off`: overwrite exactly 16 floats
of the destination with the matrix entries. -/
def storeMat16 (dst : List ℚ) (off : Nat) (mm : List ℚ) : List ℚ :=
  dst.take off ++ loadMat16 mm ++ dst.drop (off + 16)

/-- `XMMatrixPerspectiveFovRH(XM_PIDIV2, 1.0f, 0.1f, 1000.0f)` in exact
arithmetic: cot(pi/4) = 1, fRange = far / (near - far) = -10000/9999,
m[3][2] = fRange * near. -/
def projRH : List ℚ :=
  [1,0,0,0, 0,1,0,0, 0,0,-10000/9999,-1, 0,0,-1000/9999,0]

/-- `XMMatrixPerspectiveFovLH(XM_PIDIV2, 1.0f, 0.1f, 1000.0f)` in exact
arithmetic: fRange = far / (far - near) = 10000/9999,
m[3][2] = -fRange * near. -/
def projLH : List ℚ :=
  [1,0,0,0, 0,1,0,0, 0,0,10000/9999,1, 0,0,-1000/9999,0]

/-- One guarded matrix replacement of `GetModifiedBufferData`: when the
recorded offset is set (`>= 0`) and still fits the buffer
(`offset + 16 <= floatCount`), overwrite the 16-float slot with the new
matrix (`XMStoreFloat4x4`); otherwise leave the buffer untouched.
`fc` is the float count computed once from the copied snapshot. -/
def replaceAt (b : RawBuffer) (off : Int) (fc : Nat) (mm : List ℚ) : RawBuffer :=
  if 0 ≤ off ∧ off + 16 ≤ (fc : Int) then
    { b with floats := storeMat16 b.floats off.toNat mm }
  else b

/-- `CameraController::GetModifiedBufferData`.  The synthesized per-face
view matrix is taken as the parameter `viewForFace`: in the source it is
`GetViewMatrixForFace(face)`, whose look-at construction normalizes
direction vectors with square roots that have no exact rational
counterpart; no claim depends on the replacement values, so the rewriter
is verified for every possible replacement matrix.  Everything else
follows the source: fail when no camera buffer was ever identified or its
cache entry is missing; otherwise copy the cached snapshot, then overwrite
the view slot (transposing first when the original was column-major) and
the proj slot (fixed 90-degree-FOV perspective in the detected handedness),
each only when its recorded offset is set and still fits. -/
def GetModifiedBufferData (face : CubeFace) (viewForFace : CubeFace → List ℚ)
    (s : CamState) : Option RawBuffer :=
  if s.cameraBuffer = 0 then none
  else
    match alookup s.cameraBuffer s.bufferCache with
    | none => none
    | some st =>
      let out := st.data
      let floatCount := out.floatCount
      let newView0 := viewForFace face
      let newView := if s.isTransposed then transpose16 newView0 else newView0
      let out1 := replaceAt out st.viewMatrixOffset floatCount newView
      let newProj := if s.isRH then projRH else projLH
      let out2 := replaceAt out1 st.projMatrixOffset floatCount newProj
      some out2

/-- State of `CubemapManager`'s buffer interceptor: the mapped-buffer
ledger plus the camera controller it forwards to. -/
structure MgrState where
  mappedBuffers : List (Nat × RawBuffer)
  cam : CamState

/-- `CubemapManager::OnMapBuffer`: record (handle -> pointer/size) in the
ledger; no-op on a null pointer (`none`).  A ledger entry is the buffer
content the pointer designates, read at unmap time. -/
def OnMapBuffer (handle : Nat) (data : Option RawBuffer) (m : MgrState) : MgrState :=
  match data with
  | none => m
  | some b => { m with mappedBuffers := ainsert handle b m.mappedBuffers }

/-- `CubemapManager::OnUnmapBuffer`: remove the ledger entry; if one was
found and its size exceeds 64 bytes, forward pointer and size to
`CameraController::OnUpdateBuffer`. -/
def OnUnmapBuffer (handle : Nat) (m : MgrState) : MgrState :=
  match alookup handle m.mappedBuffers with
  | none => m
  | some b =>
    let m1 := { m with mappedBuffers := aerase handle m.mappedBuffers }
    if b.byteSize > 64 then { m1 with cam := OnUpdateBuffer handle b m1.cam } else m1

example : IsViewMatrix identity16 = (true, true) := by decide

example : IsProjectionMatrix [1,0,0,0, 0,1,0,0, 0,0,5,-1, 0,0,3,0] = true := by decide

example : detectWorldUp identity16 = (0, 1, 0) := by decide

/-- Float index `i` lies inside a matrix slot that `GetModifiedBufferData`
actually replaces: the recorded offset is set (non-negative) and still
fits the buffer, and `i` is within its 16-float window. -/
def inSlot (off : Int) (fc : Nat) (i : Nat) : Prop :=
  0 ≤ off ∧ off + 16 ≤ (fc : Int) ∧ off ≤ (i : Int) ∧ (i : Int) < off + 16

instance (off : Int) (fc i : Nat) : Decidable (inSlot off fc i) := by
  unfold inSlot
  infer_instance

/-- A cache entry's recorded matrix offsets, when set, fit the float count
of its current byte snapshot (`offset + 16 <= floatCount`). -/
def offsetsFit (st : BufferState) : Prop :=
  (0 ≤ st.viewMatrixOffset →
    st.viewMatrixOffset + 16 ≤ (st.data.floatCount : Int)) ∧
  (0 ≤ st.projMatrixOffset →
    st.projMatrixOffset + 16 ≤ (st.data.floatCount : Int))

/-- The §3 invariant as claimed for the whole cache. -/
def CacheOffsetsInv (s : CamState) : Prop :=
  ∀ p ∈ s.bufferCache, offsetsFit p.2

/-- Camera-identity/cache consistency: a nonzero camera handle always has a
cache entry. -/
def CamCacheInv (s : CamState) : Prop :=
  s.cameraBuffer ≠ 0 → alookup s.cameraBuffer s.bufferCache ≠ none

instance (st : BufferState) : Decidable (offsetsFit st) := by
  unfold offsetsFit
  infer_instance

instance (s : CamState) : Decidable (CacheOffsetsInv s) := by
  unfold CacheOffsetsInv
  exact List.decidableBAll _ _

/-! ### Concrete inputs used by witnesses and counterexamples -/

/-- A 60-byte buffer (15 floats): below the 64-byte minimum. -/
def buf60 : RawBuffer := ⟨List.replicate 15 0, [], by decide⟩

/-- A 68-byte all-zero buffer (17 floats): above the unmap-forward
threshold but matching no matrix pattern. -/
def buf68 : RawBuffer := ⟨List.replicate 17 0, [], by decide⟩

/-- A 4104-byte all-zero buffer (1026 floats): over the 4096-byte
mapped-path cap. -/
def bigBuf : RawBuffer := ⟨List.replicate 1026 0, [], by decide⟩

/-- A 64-byte buffer holding a view matrix whose world implied up-axis is
Z-up: the symmetric permutation swapping the Y and Z axes.  It passes both
view patterns and is its own inverse and transpose, and row 1 of its
inverse is (0, 0, 1). -/
def zUpViewBuf : RawBuffer :=
  ⟨[1,0,0,0, 0,0,1,0, 0,1,0,0, 0,0,0,1], [], by decide⟩

/-- `n` copies of 5.0 — filler that matches no matrix pattern slot. -/
def fives (n : Nat) : List ℚ := List.replicate n 5

/-- A 128-byte buffer whose only view-matrix window starts at float offset
16 (elements 19, 23, 27 are 0 and 31 is 1; all other elements are 5). -/
def buf32 : RawBuffer :=
  ⟨fives 19 ++ [0] ++ fives 3 ++ [0] ++ fives 3 ++ [0] ++ fives 3 ++ [1], [],
   by decide⟩

/-- A 64-byte buffer of fives: matches nothing. -/
def buf16 : RawBuffer := ⟨fives 16, [], by decide⟩

/-- Rescan the same handle with a big matching buffer, then a small
non-matching one: the recorded view offset goes stale. -/
def evsC3 : List ScanEvent := [⟨1, buf32, false⟩, ⟨1, buf16, false⟩]

/-- Interceptor state holding one over-4096-byte mapped entry. -/
def mgrC1 : MgrState := ⟨[(1, bigBuf)], initState⟩

/-- A 17-float camera buffer: float 16 (value 7) and the two trailing
bytes are payload outside the view slot recorded at offset 0. -/
def bufC2 : RawBuffer := ⟨List.replicate 16 0 ++ [7], [9, 9], by decide⟩

/-- Cache entry for `bufC2` with a view matrix recorded at offset 0. -/
def stC2 : BufferState := ⟨bufC2, 0, -1, false⟩

/-- Controller state whose camera buffer is handle 1 backed by `stC2`. -/
def sC2 : CamState := ⟨[(1, stC2)], 1, false, false, false, (0, 1, 0),
  identity16, identity16⟩

/-- A replacement view matrix of all threes. -/
def vffC2 : CubeFace → List ℚ := fun _ => List.replicate 16 3

/-- The rewriter's output for `sC2`: the view slot replaced by threes, the
trailing float 7 and the trailing bytes untouched. -/
def outC2 : RawBuffer :=
  ⟨loadMat16 (List.replicate 16 3) ++ [7], [9, 9], by decide⟩

/-! ### Association-list and scan-offset lemmas -/

theorem alookup_ainsert_self {α : Type} (h : Nat) (v : α) (l : List (Nat × α)) :
    alookup h (ainsert h v l) = some v := by
  induction l with
  | nil => simp [ainsert, alookup]
  | cons p rest ih =>
    obtain ⟨k, w⟩ := p
    by_cases hk : k = h
    · simp [ainsert, alookup, hk]
    · simp [ainsert, alookup, hk, ih]

theorem alookup_ainsert_ne {α : Type} {k h : Nat} (hne : k ≠ h) (v : α)
    (l : List (Nat × α)) : alookup k (ainsert h v l) = alookup k l := by
  induction l with
  | nil => simp [ainsert, alookup, Ne.symm hne]
  | cons p rest ih =>
    obtain ⟨k', w⟩ := p
    by_cases hk : k' = h
    · subst hk
      simp [ainsert, alookup, Ne.symm hne, hne]
    · by_cases hk2 : k' = k <;> simp [ainsert, alookup, hk, hk2, ih, Ne.symm hne, hne]

theorem mem_ainsert {α : Type} {p : Nat × α} {h : Nat} {v : α}
    {l : List (Nat × α)} (hp : p ∈ ainsert h v l) : p = (h, v) ∨ p ∈ l := by
  induction l with
  | nil => simpa [ainsert] using hp
  | cons q rest ih =>
    obtain ⟨k, w⟩ := q
    by_cases hk : k = h
    · subst hk
      simp only [ainsert, if_pos rfl] at hp
      rcases List.mem_cons.mp hp with h1 | h1
      · exact Or.inl h1
      · exact Or.inr (List.mem_cons_of_mem _ h1)
    · simp only [ainsert, if_neg hk] at hp
      rcases List.mem_cons.mp hp with h1 | h1
      · exact Or.inr (h1 ▸ List.mem_cons_self _ _)
      · rcases ih h1 with h2 | h2
        · exact Or.inl h2
        · exact Or.inr (List.mem_cons_of_mem _ h2)

theorem mem_of_alookup_eq_some {α : Type} {h : Nat} {v : α}
    {l : List (Nat × α)} (hl : alookup h l = some v) : (h, v) ∈ l := by
  induction l with
  | nil => simp [alookup] at hl
  | cons q rest ih =>
    obtain ⟨k, w⟩ := q
    simp only [alookup] at hl
    split at hl
    · rename_i hkh
      injection hl with hl
      subst hkh hl
      exact List.mem_cons_self _ _
    · exact List.mem_cons_of_mem _ (ih hl)

theorem scanOffsets_bound {fc i : Nat} (hfc : 16 ≤ fc)
    (hi : i ∈ scanOffsets fc) : i + 16 ≤ fc := by
  simp only [scanOffsets, List.mem_map, List.mem_range] at hi
  obtain ⟨j, hj, rfl⟩ := hi
  have hj' : j ≤ (fc - 16) / 4 := Nat.lt_succ_iff.mp hj
  have hdiv : (fc - 16) / 4 * 4 ≤ fc - 16 := Nat.div_mul_le_self _ 4
  omega

/-! ### Structural lemmas about the scan steps -/

theorem viewStep_cases (handle : Nat) (buf : RawBuffer) (offsets : List Nat)
    (entry : BufferState) (s : CamState) :
    (viewStep handle buf offsets entry s = (entry, s)) ∨
    ∃ i ∈ offsets,
      (viewStep handle buf offsets entry s).1 =
        { entry with viewMatrixOffset := (i : Int), isCamera := true } ∧
      (viewStep handle buf offsets entry s).2.bufferCache = s.bufferCache ∧
      (viewStep handle buf offsets entry s).2.cameraBuffer = handle := by
  unfold viewStep
  cases hf : offsets.find? (fun i => (IsViewMatrix (buf.floats.drop i)).fst) with
  | none => exact Or.inl rfl
  | some i =>
    refine Or.inr ⟨i, List.mem_of_find?_eq_some hf, rfl, ?_, ?_⟩ <;>
      by_cases hup : s.upDetected <;> simp [hup]

theorem projStep_cases (handle : Nat) (buf : RawBuffer) (offsets : List Nat)
    (entry : BufferState) (s : CamState) :
    (projStep handle buf offsets entry s = (entry, s)) ∨
    ∃ i ∈ offsets,
      (projStep handle buf offsets entry s).1 =
        { entry with projMatrixOffset := (i : Int), isCamera := true } ∧
      (projStep handle buf offsets entry s).2.bufferCache = s.bufferCache ∧
      (projStep handle buf offsets entry s).2.cameraBuffer = handle := by
  unfold projStep
  cases hf : offsets.find? (fun i => IsProjectionMatrix (buf.floats.drop i)) with
  | none => exact Or.inl rfl
  | some i => exact Or.inr ⟨i, List.mem_of_find?_eq_some hf, rfl, rfl, rfl⟩

theorem viewStep_up_preserved (handle : Nat) (buf : RawBuffer)
    (offsets : List Nat) (entry : BufferState) (s : CamState)
    (hup : s.upDetected = true) :
    (viewStep handle buf offsets entry s).2.upDetected = true ∧
    (viewStep handle buf offsets entry s).2.worldUp = s.worldUp := by
  unfold viewStep
  cases hf : offsets.find? (fun i => (IsViewMatrix (buf.floats.drop i)).fst) with
  | none => exact ⟨hup, rfl⟩
  | some i => simp [hup]

theorem projStep_up_preserved (handle : Nat) (buf : RawBuffer)
    (offsets : List Nat) (entry : BufferState) (s : CamState) :
    (projStep handle buf offsets entry s).2.upDetected = s.upDetected ∧
    (projStep handle buf offsets entry s).2.worldUp = s.worldUp := by
  unfold projStep
  cases hf : offsets.find? (fun i => IsProjectionMatrix (buf.floats.drop i)) with
  | none => exact ⟨rfl, rfl⟩
  | some i => exact ⟨rfl, rfl⟩

/-- Guard case: buffers under 64 bytes are rejected before any mutation. -/
theorem scan_small_noop {handle : Nat} {buf : RawBuffer} {isMapped : Bool}
    {s : CamState} (h : buf.byteSize < 64) :
    ScanBufferImpl handle buf isMapped s = s := by
  unfold ScanBufferImpl
  rw [if_pos h]

/-- Guard case: mapped buffers over 4096 bytes are rejected. -/
theorem scan_mapped_large_noop {handle : Nat} {buf : RawBuffer} {s : CamState}
    (h : buf.byteSize > 4096) :
    ScanBufferImpl handle buf true s = s := by
  unfold ScanBufferImpl
  rw [if_neg (by omega), if_pos ⟨rfl, h⟩]

/-- Unfolding of the scan once both guards have passed. -/
theorem scan_unfold {handle : Nat} {buf : RawBuffer} {isMapped : Bool}
    {s : CamState} (hsmall : ¬ buf.byteSize < 64)
    (hlarge : ¬ (isMapped = true ∧ buf.byteSize > 4096)) :
    ScanBufferImpl handle buf isMapped s =
      { (scanCore handle buf s).2 with
        bufferCache := ainsert handle (scanCore handle buf s).1 s.bufferCache } := by
  unfold ScanBufferImpl
  rw [if_neg hsmall, if_neg hlarge]

/-- The scan core never touches the up-detection state once it is set, and
never changes the cache held in its state component. -/
theorem scanCore_up_preserved (handle : Nat) (buf : RawBuffer) (s : CamState)
    (hup : s.upDetected = true) :
    (scanCore handle buf s).2.upDetected = true ∧
    (scanCore handle buf s).2.worldUp = s.worldUp := by
  unfold scanCore
  have hv := viewStep_up_preserved handle buf (scanOffsets buf.floatCount)
    { (alookup handle s.bufferCache).getD defaultBufferState with data := buf } s hup
  have hp := projStep_up_preserved handle buf (scanOffsets buf.floatCount)
    (viewStep handle buf (scanOffsets buf.floatCount)
      { (alookup handle s.bufferCache).getD defaultBufferState with data := buf } s).1
    (viewStep handle buf (scanOffsets buf.floatCount)
      { (alookup handle s.bufferCache).getD defaultBufferState with data := buf } s).2
  exact ⟨hp.1.trans hv.1, hp.2.trans hv.2⟩

/-- A single scan preserves a set world-up flag and its vector. -/
theorem scan_up_preserved {handle : Nat} {buf : RawBuffer} {isMapped : Bool}
    {s : CamState} (hup : s.upDetected = true) :
    (ScanBufferImpl handle buf isMapped s).upDetected = true ∧
    (ScanBufferImpl handle buf isMapped s).worldUp = s.worldUp := by
  by_cases hsmall : buf.byteSize < 64
  · rw [scan_small_noop hsmall]; exact ⟨hup, rfl⟩
  · by_cases hlarge : isMapped = true ∧ buf.byteSize > 4096
    · obtain ⟨hm, hsz⟩ := hlarge
      subst hm
      rw [scan_mapped_large_noop hsz]
      exact ⟨hup, rfl⟩
    · rw [scan_unfold hsmall hlarge]
      exact scanCore_up_preserved handle buf s hup

/-! ### Claim C8: buffers under 64 bytes are fully ignored -/

/-- C8: for every buffer of size less than 64 bytes passed to either scan
entry point, the scan returns without mutating the cache or any
camera-identity state and without detecting a camera (the whole controller
state is returned unchanged). -/
theorem claim_C8_small_buffer_noop (handle : Nat) (buf : RawBuffer)
    (s : CamState) (h : buf.byteSize < 64) :
    OnUpdateBuffer handle buf s = s ∧ OnScanBuffer handle buf s = s := by
  unfold OnUpdateBuffer OnScanBuffer
  exact ⟨scan_small_noop h, scan_small_noop h⟩

/-- C8 witness: a concrete 60-byte buffer is a no-op on both paths. -/
theorem claim_C8_witness :
    OnUpdateBuffer 1 buf60 initState = initState ∧
    OnScanBuffer 1 buf60 initState = initState :=
  claim_C8_small_buffer_noop 1 buf60 initState (by decide)

/-! ### Claim C9: mapped buffers over 4096 bytes are skipped -/

/-- C9: for every buffer of size greater than 4096 bytes arriving via the
mapped path, the scan is skipped entirely regardless of the buffer's
content: no cache mutation, no matrix detection, no camera-identity
update. -/
theorem claim_C9_mapped_large_skip (handle : Nat) (buf : RawBuffer)
    (s : CamState) (h : buf.byteSize > 4096) :
    OnScanBuffer handle buf s = s := by
  unfold OnScanBuffer
  exact scan_mapped_large_noop h

set_option maxRecDepth 20000 in
/-- C9 witness: a concrete 4104-byte mapped buffer is skipped. -/
theorem claim_C9_witness : OnScanBuffer 1 bigBuf initState = initState :=
  claim_C9_mapped_large_skip 1 bigBuf initState (by decide)

/-! ### Claim C7: failure when no camera has been identified -/

/-- C7: `GetModifiedBufferData` returns failure (`none`) whenever no camera
buffer has ever been identified (handle 0), or when the identified camera
buffer's cache entry is missing; in particular any call on the initial
state, before any scan has found a camera, returns failure. -/
theorem claim_C7_no_camera_failure (face : CubeFace)
    (viewForFace : CubeFace → List ℚ) (s : CamState)
    (h : s.cameraBuffer = 0 ∨ alookup s.cameraBuffer s.bufferCache = none) :
    GetModifiedBufferData face viewForFace s = none := by
  unfold GetModifiedBufferData
  rcases h with h | h
  · rw [if_pos h]
  · by_cases h0 : s.cameraBuffer = 0
    · rw [if_pos h0]
    · rw [if_neg h0, h]

/-- C7 witness: the initial state (no scan has run) yields failure. -/
theorem claim_C7_witness :
    GetModifiedBufferData CubeFace.Front vffC2 initState = none :=
  claim_C7_no_camera_failure CubeFace.Front vffC2 initState (Or.inl rfl)

/-! ### Claim C6: the projection-matrix test and handedness -/

/-- C6: the projection test accepts a window iff elements 1, 2, 3, 4, 6, 7
and 15 are each within 0.1 of zero and element 11 is within 0.1 of +1 or
of -1; an accepted window with element 11 equal to -1 is classified
right-handed and one with element 11 equal to 1 left-handed. -/
theorem claim_C6_projection_test (d : List ℚ) :
    (IsProjectionMatrix d = true ↔
      (qabs (d.getD 1 0) ≤ eps ∧ qabs (d.getD 2 0) ≤ eps ∧
       qabs (d.getD 3 0) ≤ eps ∧ qabs (d.getD 4 0) ≤ eps ∧
       qabs (d.getD 6 0) ≤ eps ∧ qabs (d.getD 7 0) ≤ eps ∧
       qabs (d.getD 15 0) ≤ eps ∧
       (qabs (d.getD 11 0 - 1) ≤ eps ∨ qabs (d.getD 11 0 + 1) ≤ eps))) ∧
    (d.getD 11 0 = -1 → IsRightHandedProjection d = true) ∧
    (d.getD 11 0 = 1 → IsRightHandedProjection d = false) := by
  refine ⟨?_, ?_, ?_⟩
  · unfold IsProjectionMatrix
    split_ifs with h1 h2 h3 h4
    · simp only [Bool.false_eq_true, false_iff]
      intro hC
      rcases h1 with h | h | h
      · exact absurd hC.1 (not_le.mpr h)
      · exact absurd hC.2.1 (not_le.mpr h)
      · exact absurd hC.2.2.1 (not_le.mpr h)
    · simp only [Bool.false_eq_true, false_iff]
      intro hC
      rcases h2 with h | h | h
      · exact absurd hC.2.2.2.1 (not_le.mpr h)
      · exact absurd hC.2.2.2.2.1 (not_le.mpr h)
      · exact absurd hC.2.2.2.2.2.1 (not_le.mpr h)
    · simp only [Bool.false_eq_true, false_iff]
      intro hC
      exact absurd hC.2.2.2.2.2.2.1 (not_le.mpr h3)
    · simp only [Bool.false_eq_true, false_iff]
      intro hC
      rcases hC.2.2.2.2.2.2.2 with h | h
      · exact absurd h (not_le.mpr h4.1)
      · exact absurd h (not_le.mpr h4.2)
    · simp only [true_iff]
      push_neg at h1 h2 h3 h4
      refine ⟨h1.1, h1.2.1, h1.2.2, h2.1, h2.2.1, h2.2.2, h3, ?_⟩
      rcases le_or_lt (qabs (d.getD 11 0 - 1)) eps with hle | hgt
      · exact Or.inl hle
      · exact Or.inr (h4 hgt)
  · intro h
    unfold IsRightHandedProjection
    rw [h]
    decide
  · intro h
    unfold IsRightHandedProjection
    rw [h]
    decide

/-- C6 witness: a concrete right-handed perspective pattern is accepted and
classified right-handed. -/
theorem claim_C6_witness :
    IsProjectionMatrix [1,0,0,0, 0,1,0,0, 0,0,5,-1, 0,0,3,0] = true ∧
    IsRightHandedProjection [1,0,0,0, 0,1,0,0, 0,0,5,-1, 0,0,3,0] = true :=
  ⟨(claim_C6_projection_test _).1.mpr (by decide),
   (claim_C6_projection_test _).2.1 (by decide)⟩

/-! ### Claim C4: the view-matrix test -/

/-- C4 counterexample: the identity matrix satisfies the row-major pattern
(elements 3, 7, 11 within 0.1 of zero, element 15 within 0.1 of one), yet
the test reports it as a transposed match, not `(true, false)` as claimed,
because the column-major pattern also holds and `isTransposed` is set to
the column-major outcome unconditionally. -/
theorem claim_C4_counterexample :
    (qabs (identity16.getD 3 0) < eps ∧ qabs (identity16.getD 7 0) < eps ∧
     qabs (identity16.getD 11 0) < eps ∧
     qabs (identity16.getD 15 0 - 1) < eps) ∧
    IsViewMatrix identity16 ≠ (true, false) := by
  decide

/-- C4 amended: a window satisfying the row-major pattern is classified as
a non-transposed match provided the column-major pattern does not also
hold; a window satisfying the column-major pattern (positions 12, 13, 14
near zero and 15 near one) is always classified as a transposed match,
even when the row-major pattern holds too. -/
theorem claim_C4_view_test (d : List ℚ) :
    ((qabs (d.getD 3 0) < eps ∧ qabs (d.getD 7 0) < eps ∧
      qabs (d.getD 11 0) < eps ∧ qabs (d.getD 15 0 - 1) < eps) →
     ¬(qabs (d.getD 12 0) < eps ∧ qabs (d.getD 13 0) < eps ∧
       qabs (d.getD 14 0) < eps ∧ qabs (d.getD 15 0 - 1) < eps) →
     IsViewMatrix d = (true, false)) ∧
    ((qabs (d.getD 12 0) < eps ∧ qabs (d.getD 13 0) < eps ∧
      qabs (d.getD 14 0) < eps ∧ qabs (d.getD 15 0 - 1) < eps) →
     IsViewMatrix d = (true, true)) := by
  constructor
  · intro hrow hcol
    unfold IsViewMatrix
    rw [decide_eq_true hrow, decide_eq_false hcol]
    rfl
  · intro hcol
    unfold IsViewMatrix
    rw [decide_eq_true hcol]
    simp

/-- C4 witness: a generic row-major-only window is a non-transposed match,
and a generic column-major-only window is a transposed match. -/
theorem claim_C4_witness :
    IsViewMatrix [2,3,4,0, 5,6,7,0, 8,9,1,0, 11,12,13,1] = (true, false) ∧
    IsViewMatrix [2,3,4,5, 6,7,8,9, 10,11,12,13, 0,0,0,1] = (true, true) :=
  ⟨(claim_C4_view_test _).1 (by decide) (by decide),
   (claim_C4_view_test _).2 (by decide)⟩

/-! ### Claim C5: world-up detection is sticky -/

/-- C5: once world-up detection has run (the flag is set), the stored
world-up vector and the detected flag are never changed by any subsequent
sequence of scans, even if a later view matrix would imply a different
up-axis. -/
theorem claim_C5_worldup_sticky (evs : List ScanEvent) (s : CamState)
    (hup : s.upDetected = true) :
    (applyScans evs s).worldUp = s.worldUp ∧
    (applyScans evs s).upDetected = true := by
  induction evs generalizing s with
  | nil => exact ⟨rfl, hup⟩
  | cons e rest ih =>
    have hstep := @scan_up_preserved e.handle e.buf e.isMapped s hup
    have hrest := ih (ScanBufferImpl e.handle e.buf e.isMapped s) hstep.1
    exact ⟨hrest.1.trans hstep.2, hrest.2⟩

/-- C5 witness: scanning a view matrix that implies a Z-up world (its
world-up detection result would be (0,0,1)) does not alter an already
detected Y-up value. -/
theorem claim_C5_witness :
    (applyScans [⟨1, zUpViewBuf, false⟩]
        { initState with upDetected := true }).worldUp = (0, 1, 0) ∧
    detectWorldUp (loadMat16 zUpViewBuf.floats) = (0, 0, 1) :=
  ⟨(claim_C5_worldup_sticky [⟨1, zUpViewBuf, false⟩]
      { initState with upDetected := true } rfl).1,
   by decide⟩

/-! ### Structural lemmas about cache and camera handle -/

theorem viewStep_bufferCache (handle : Nat) (buf : RawBuffer)
    (offsets : List Nat) (entry : BufferState) (s : CamState) :
    (viewStep handle buf offsets entry s).2.bufferCache = s.bufferCache := by
  unfold viewStep
  cases offsets.find? (fun i => (IsViewMatrix (buf.floats.drop i)).fst) with
  | none => rfl
  | some i => by_cases hup : s.upDetected <;> simp [hup]

theorem projStep_bufferCache (handle : Nat) (buf : RawBuffer)
    (offsets : List Nat) (entry : BufferState) (s : CamState) :
    (projStep handle buf offsets entry s).2.bufferCache = s.bufferCache := by
  unfold projStep
  cases offsets.find? (fun i => IsProjectionMatrix (buf.floats.drop i)) with
  | none => rfl
  | some i => rfl

theorem scanCore_cameraBuffer (handle : Nat) (buf : RawBuffer) (s : CamState) :
    (scanCore handle buf s).2.cameraBuffer = s.cameraBuffer ∨
    (scanCore handle buf s).2.cameraBuffer = handle := by
  unfold scanCore
  rcases projStep_cases handle buf (scanOffsets buf.floatCount)
      (viewStep handle buf (scanOffsets buf.floatCount)
        { (alookup handle s.bufferCache).getD defaultBufferState with data := buf } s).1
      (viewStep handle buf (scanOffsets buf.floatCount)
        { (alookup handle s.bufferCache).getD defaultBufferState with data := buf } s).2
    with hp | ⟨j, _, _, _, hcam2⟩
  · rw [hp]
    rcases viewStep_cases handle buf (scanOffsets buf.floatCount)
        { (alookup handle s.bufferCache).getD defaultBufferState with data := buf } s
      with hv | ⟨i, _, _, _, hcam⟩
    · rw [hv]
      exact Or.inl rfl
    · exact Or.inr hcam
  · exact Or.inr hcam2

/-- One scan preserves camera-handle/cache consistency. -/
theorem scan_camInv {handle : Nat} {buf : RawBuffer} {isMapped : Bool}
    {s : CamState} (hinv : CamCacheInv s) :
    CamCacheInv (ScanBufferImpl handle buf isMapped s) := by
  by_cases hsmall : buf.byteSize < 64
  · rw [scan_small_noop hsmall]; exact hinv
  · by_cases hlarge : isMapped = true ∧ buf.byteSize > 4096
    · obtain ⟨hm, hsz⟩ := hlarge
      subst hm
      rw [scan_mapped_large_noop hsz]
      exact hinv
    · rw [scan_unfold hsmall hlarge]
      intro hne
      show alookup (scanCore handle buf s).2.cameraBuffer
        (ainsert handle (scanCore handle buf s).1 s.bufferCache) ≠ none
      have hne' : (scanCore handle buf s).2.cameraBuffer ≠ 0 := hne
      rcases scanCore_cameraBuffer handle buf s with hcb | hcb
      · rw [hcb]
        by_cases hh : s.cameraBuffer = handle
        · rw [hh, alookup_ainsert_self]
          simp
        · rw [alookup_ainsert_ne hh]
          exact hinv (hcb ▸ hne')
      · rw [hcb, alookup_ainsert_self]
        simp

/-! ### Claim C10: a nonzero camera handle always has a cache entry -/

/-- C10: after any sequence of scans from the initial state, whenever the
camera-buffer handle is nonzero the buffer cache contains an entry for it
(the entry is created by the same scan that assigns the handle and entries
are never removed); consequently the missing-cache-entry failure branch of
`GetModifiedBufferData` is unreachable: a failure implies no camera was
ever identified. -/
theorem claim_C10_camera_has_cache_entry (evs : List ScanEvent) :
    ((applyScans evs initState).cameraBuffer ≠ 0 →
      alookup (applyScans evs initState).cameraBuffer
        (applyScans evs initState).bufferCache ≠ none) ∧
    (∀ (face : CubeFace) (viewForFace : CubeFace → List ℚ),
      GetModifiedBufferData face viewForFace (applyScans evs initState) = none →
      (applyScans evs initState).cameraBuffer = 0) := by
  have gen : ∀ (l : List ScanEvent) (s : CamState), CamCacheInv s →
      CamCacheInv (applyScans l s) := by
    intro l
    induction l with
    | nil => exact fun s hs => hs
    | cons e rest ih => exact fun s hs => ih _ (scan_camInv hs)
  have hinv : CamCacheInv (applyScans evs initState) :=
    gen evs initState (fun h => absurd rfl h)
  refine ⟨hinv, ?_⟩
  intro face viewForFace hnone
  by_contra hne
  have hl := hinv hne
  unfold GetModifiedBufferData at hnone
  rw [if_neg hne] at hnone
  cases halk : alookup (applyScans evs initState).cameraBuffer
      (applyScans evs initState).bufferCache with
  | none => exact hl halk
  | some st =>
    rw [halk] at hnone
    simp at hnone

/-- C10 witness: one scan that identifies a camera leaves the handle
nonzero with a present cache entry. -/
theorem claim_C10_witness :
    alookup (applyScans [⟨1, zUpViewBuf, false⟩] initState).cameraBuffer
      (applyScans [⟨1, zUpViewBuf, false⟩] initState).bufferCache ≠ none :=
  (claim_C10_camera_has_cache_entry [⟨1, zUpViewBuf, false⟩]).1 (by decide)

/-! ### Claim C3: offset bounds in the cache -/

/-- C3 counterexample: rescanning handle 1 with a smaller buffer leaves the
previously recorded view offset (16) in place while the snapshot shrinks
to 16 floats, violating `offset + 16 <= floatCount` for the buffer's
current size.  The §7(d) stale-offset guard in `GetModifiedBufferData`
exists precisely because of this. -/
theorem claim_C3_counterexample :
    ¬ CacheOffsetsInv (applyScans evsC3 initState) := by
  decide

/-- The final cache entry produced by a scan: its snapshot is the scanned
buffer, and each recorded offset is either the offset already in the cache
(or the -1 none sentinel for a fresh entry) or an offset of the scan's
sliding window. -/
theorem scanCore_entry (handle : Nat) (buf : RawBuffer) (s : CamState) :
    (scanCore handle buf s).1.data = buf ∧
    ((scanCore handle buf s).1.viewMatrixOffset =
       ((alookup handle s.bufferCache).getD defaultBufferState).viewMatrixOffset ∨
     ∃ i ∈ scanOffsets buf.floatCount,
       (scanCore handle buf s).1.viewMatrixOffset = (i : Int)) ∧
    ((scanCore handle buf s).1.projMatrixOffset =
       ((alookup handle s.bufferCache).getD defaultBufferState).projMatrixOffset ∨
     ∃ i ∈ scanOffsets buf.floatCount,
       (scanCore handle buf s).1.projMatrixOffset = (i : Int)) := by
  unfold scanCore
  rcases viewStep_cases handle buf (scanOffsets buf.floatCount)
      { (alookup handle s.bufferCache).getD defaultBufferState with data := buf } s
    with hv | ⟨i, hi, hev, _, _⟩ <;>
  rcases projStep_cases handle buf (scanOffsets buf.floatCount)
      (viewStep handle buf (scanOffsets buf.floatCount)
        { (alookup handle s.bufferCache).getD defaultBufferState with data := buf } s).1
      (viewStep handle buf (scanOffsets buf.floatCount)
        { (alookup handle s.bufferCache).getD defaultBufferState with data := buf } s).2
    with hp | ⟨j, hj, hep, _, _⟩
  · rw [hp, hv]
    exact ⟨rfl, Or.inl rfl, Or.inl rfl⟩
  · rw [hep, hv]
    exact ⟨rfl, Or.inl rfl, Or.inr ⟨j, hj, rfl⟩⟩
  · rw [hp, hev]
    exact ⟨rfl, Or.inr ⟨i, hi, rfl⟩, Or.inl rfl⟩
  · rw [hep, hev]
    exact ⟨rfl, Or.inr ⟨i, hi, rfl⟩, Or.inr ⟨j, hj, rfl⟩⟩

/-- C3 amended: offsets recorded by a scan always fit the buffer size of
that same scan, so the §3 invariant holds after any scan that does not
shrink a previously scanned buffer; it can only be broken by rescanning a
handle with a smaller buffer (the stale-offset case of §7(d)). -/
theorem claim_C3_offsets_fit (s : CamState) (handle : Nat) (buf : RawBuffer)
    (isMapped : Bool) (hinv : CacheOffsetsInv s)
    (hmono : ∀ st, alookup handle s.bufferCache = some st →
      st.data.floatCount ≤ buf.floatCount) :
    CacheOffsetsInv (ScanBufferImpl handle buf isMapped s) := by
  by_cases hsmall : buf.byteSize < 64
  · rw [scan_small_noop hsmall]; exact hinv
  · by_cases hlarge : isMapped = true ∧ buf.byteSize > 4096
    · obtain ⟨hm, hsz⟩ := hlarge
      subst hm
      rw [scan_mapped_large_noop hsz]
      exact hinv
    · rw [scan_unfold hsmall hlarge]
      intro p hp
      have hp' : p ∈ ainsert handle (scanCore handle buf s).1 s.bufferCache := hp
      rcases mem_ainsert hp' with hpe | hmem
      · subst hpe
        show offsetsFit (scanCore handle buf s).1
        obtain ⟨hdata, hview, hproj⟩ := scanCore_entry handle buf s
        have hfc16 : 16 ≤ buf.floatCount := by
          have h64 : 64 ≤ buf.byteSize := not_lt.mp hsmall
          unfold RawBuffer.floatCount
          omega
        constructor
        · intro hge
          rw [hdata]
          rcases hview with heq | ⟨i, hi, heq⟩
          · cases halk : alookup handle s.bufferCache with
            | none =>
              rw [halk] at heq
              rw [heq] at hge
              exact absurd hge (by decide)
            | some st0 =>
              rw [halk] at heq
              simp only [Option.getD_some] at heq
              have hfit : offsetsFit st0 :=
                hinv (handle, st0) (mem_of_alookup_eq_some halk)
              have hmono' := hmono st0 halk
              rw [heq] at hge ⊢
              have hb := hfit.1 hge
              omega
          · rw [heq]
            have := scanOffsets_bound hfc16 hi
            omega
        · intro hge
          rw [hdata]
          rcases hproj with heq | ⟨i, hi, heq⟩
          · cases halk : alookup handle s.bufferCache with
            | none =>
              rw [halk] at heq
              rw [heq] at hge
              exact absurd hge (by decide)
            | some st0 =>
              rw [halk] at heq
              simp only [Option.getD_some] at heq
              have hfit : offsetsFit st0 :=
                hinv (handle, st0) (mem_of_alookup_eq_some halk)
              have hmono' := hmono st0 halk
              rw [heq] at hge ⊢
              have hb := hfit.2 hge
              omega
          · rw [heq]
            have := scanOffsets_bound hfc16 hi
            omega
      · exact hinv p hmem

/-- C3 witness: a first scan of a fresh handle establishes the invariant. -/
theorem claim_C3_witness :
    CacheOffsetsInv (ScanBufferImpl 1 buf32 false initState) :=
  claim_C3_offsets_fit initState 1 buf32 false
    (fun p hp => absurd hp (List.not_mem_nil p))
    (fun st h => by simp [initState, alookup] at h)

/-! ### Claim C1: what OnUnmapBuffer forwards -/

set_option maxRecDepth 40000 in
/-- C1 counterexample: for a found ledger entry of 4104 bytes (> 64), the
claim says the scan runs with the was-mapped flag set, which would skip
the buffer under the 4096-byte mapped cap and leave the controller
unchanged; the code instead forwards through `OnUpdateBuffer` (flag
clear), which scans the buffer and creates a cache entry, so the resulting
controller states differ. -/
theorem claim_C1_counterexample :
    (OnUnmapBuffer 1 mgrC1).cam ≠ OnScanBuffer 1 bigBuf mgrC1.cam := by
  intro heq
  have hsmall : ¬ bigBuf.byteSize < 64 := by decide
  have hlarge : ¬ ((false : Bool) = true ∧ bigBuf.byteSize > 4096) := by
    intro hc
    exact Bool.false_ne_true hc.1
  have hforward : (OnUnmapBuffer 1 mgrC1).cam = OnUpdateBuffer 1 bigBuf initState :=
    rfl
  have h2 : OnScanBuffer 1 bigBuf mgrC1.cam = initState :=
    scan_mapped_large_noop (by decide)
  have h1 : alookup 1 (OnUpdateBuffer 1 bigBuf initState).bufferCache =
      some (scanCore 1 bigBuf initState).1 := by
    unfold OnUpdateBuffer
    rw [scan_unfold hsmall hlarge]
    exact alookup_ainsert_self 1 _ _
  rw [hforward, h2] at heq
  rw [heq] at h1
  simp [initState, alookup] at h1

/-- C1 amended: `OnUnmapBuffer` atomically removes the ledger entry for the
resource; if one was found with size > 64 bytes it forwards the pointer
and size to the Camera Detector — but through `OnUpdateBuffer`, i.e. with
the was-mapped flag clear, not set as claimed.  If no entry is found the
call is a no-op. -/
theorem claim_C1_unmap_contract :
    (∀ (m : MgrState) (handle : Nat) (b : RawBuffer),
      alookup handle m.mappedBuffers = some b → b.byteSize > 64 →
      (OnUnmapBuffer handle m).cam = OnUpdateBuffer handle b m.cam ∧
      (OnUnmapBuffer handle m).mappedBuffers = aerase handle m.mappedBuffers) ∧
    (∀ (m : MgrState) (handle : Nat),
      alookup handle m.mappedBuffers = none → OnUnmapBuffer handle m = m) := by
  constructor
  · intro m handle b hl hsz
    unfold OnUnmapBuffer
    simp only [hl]
    rw [if_pos hsz]
    exact ⟨rfl, rfl⟩
  · intro m handle hl
    unfold OnUnmapBuffer
    simp only [hl]

/-- C1 witness: a found 68-byte entry is forwarded through the unmapped
path, and a missing entry is a no-op. -/
theorem claim_C1_witness :
    (OnUnmapBuffer 1 ⟨[(1, buf68)], initState⟩).cam =
      OnUpdateBuffer 1 buf68 initState ∧
    OnUnmapBuffer 1 ⟨[], initState⟩ = ⟨[], initState⟩ :=
  ⟨(claim_C1_unmap_contract.1 ⟨[(1, buf68)], initState⟩ 1 buf68 rfl (by decide)).1,
   claim_C1_unmap_contract.2 ⟨[], initState⟩ 1 rfl⟩

/-! ### Claim C2: the rewriter preserves everything outside the slots -/

theorem loadMat16_length (mm : List ℚ) : (loadMat16 mm).length = 16 := by
  simp [loadMat16]

theorem storeMat16_length {dst : List ℚ} {off : Nat} (mm : List ℚ)
    (h : off + 16 ≤ dst.length) :
    (storeMat16 dst off mm).length = dst.length := by
  simp [storeMat16, loadMat16]
  omega

theorem storeMat16_getElem?_outside {dst : List ℚ} {off : Nat} (mm : List ℚ)
    (hfit : off + 16 ≤ dst.length) {i : Nat} (hi : i < off ∨ off + 16 ≤ i) :
    (storeMat16 dst off mm)[i]? = dst[i]? := by
  unfold storeMat16
  have hlt : (dst.take off).length = off := by
    simp
    omega
  have hll : (loadMat16 mm).length = 16 := loadMat16_length mm
  rcases hi with hi | hi
  · rw [List.append_assoc,
        List.getElem?_append_left (by rw [hlt]; exact hi),
        List.getElem?_take_of_lt hi]
  · have hlen : (dst.take off ++ loadMat16 mm).length = off + 16 := by
      rw [List.length_append, hlt, hll]
    rw [List.getElem?_append_right (by rw [hlen]; omega), hlen,
        List.getElem?_drop]
    have harith : off + 16 + (i - (off + 16)) = i := by omega
    rw [harith]

theorem replaceAt_trailing (b : RawBuffer) (off : Int) (fc : Nat)
    (mm : List ℚ) : (replaceAt b off fc mm).trailing = b.trailing := by
  unfold replaceAt
  split <;> rfl

theorem replaceAt_floats_length (b : RawBuffer) (off : Int) (fc : Nat)
    (mm : List ℚ) (hfc : fc ≤ b.floats.length) :
    (replaceAt b off fc mm).floats.length = b.floats.length := by
  unfold replaceAt
  split
  · next h => exact storeMat16_length mm (by omega)
  · rfl

theorem replaceAt_getElem?_outside (b : RawBuffer) (off : Int) (fc : Nat)
    (mm : List ℚ) {i : Nat} (hfc : fc ≤ b.floats.length)
    (hi : ¬ inSlot off fc i) :
    (replaceAt b off fc mm).floats[i]? = b.floats[i]? := by
  unfold replaceAt
  split
  · next h =>
    unfold inSlot at hi
    push_neg at hi
    apply storeMat16_getElem?_outside mm (by omega)
    rcases lt_or_le (i : Int) off with h' | h'
    · left
      omega
    · right
      have := hi h.1 h.2 h'
      omega
  · rfl

/-- C2: for every cached camera buffer and every cube face (and every
possible replacement view matrix), whenever `GetModifiedBufferData`
succeeds, every float outside the replaced matrix slot(s) and every
trailing byte of the output is identical to the cached snapshot; the
cached `BufferState` itself is never mutated — in this embedding
`GetModifiedBufferData` takes the state immutably and only builds the
returned copy. -/
theorem claim_C2_preserves_outside (face : CubeFace)
    (viewForFace : CubeFace → List ℚ) (s : CamState) (st : BufferState)
    (out : RawBuffer)
    (hl : alookup s.cameraBuffer s.bufferCache = some st)
    (hout : GetModifiedBufferData face viewForFace s = some out) :
    out.trailing = st.data.trailing ∧
    out.floats.length = st.data.floats.length ∧
    ∀ i : Nat, ¬ inSlot st.viewMatrixOffset st.data.floatCount i →
      ¬ inSlot st.projMatrixOffset st.data.floatCount i →
      out.floats[i]? = st.data.floats[i]? := by
  unfold GetModifiedBufferData at hout
  by_cases h0 : s.cameraBuffer = 0
  · rw [if_pos h0] at hout
    exact absurd hout (by simp)
  · rw [if_neg h0, hl] at hout
    simp only at hout
    injection hout with hout
    subst hout
    have hfc : st.data.floatCount ≤ st.data.floats.length :=
      le_of_eq (RawBuffer.floatCount_eq st.data)
    have hfc1 : st.data.floatCount ≤
        (replaceAt st.data st.viewMatrixOffset st.data.floatCount
          (if s.isTransposed then transpose16 (viewForFace face)
           else viewForFace face)).floats.length := by
      rw [replaceAt_floats_length _ _ _ _ hfc]
      exact hfc
    refine ⟨?_, ?_, ?_⟩
    · rw [replaceAt_trailing, replaceAt_trailing]
    · rw [replaceAt_floats_length _ _ _ _ hfc1,
          replaceAt_floats_length _ _ _ _ hfc]
    · intro i hiv hip
      rw [replaceAt_getElem?_outside _ _ _ _ hfc1 hip,
          replaceAt_getElem?_outside _ _ _ _ hfc hiv]

/-- C2 witness: with a 17-float camera buffer whose view slot starts at
offset 0, the rewriter succeeds and float 16 and the trailing bytes of the
output equal the cached snapshot. -/
theorem claim_C2_witness :
    GetModifiedBufferData CubeFace.Front vffC2 sC2 = some outC2 ∧
    outC2.floats[16]? = stC2.data.floats[16]? ∧
    outC2.trailing = stC2.data.trailing := by
  have h2 : GetModifiedBufferData CubeFace.Front vffC2 sC2 = some outC2 := rfl
  have hmain := claim_C2_preserves_outside CubeFace.Front vffC2 sC2 stC2 outC2
    rfl h2
  exact ⟨h2, hmain.2.2 16 (by decide) (by decide), hmain.1⟩
